import Mathlib

/-!
Verification development for the Pico-Train-Switching control core.

The definitions below are a shallow embedding of the Python sources:
  - `src/train_switch.py` (device state-machine hierarchy),
  - `src/timer.py` (shared timer multiplexer),
  - `src/server_methods.py` (device registry / pin pool / profile store),
  - `app/server_methods.py` (the `delete` operation, which the latest
    snapshot exposes only in this historical revision).

Python strings stay `String`, `None`-able strings become `Option String`,
Python sets of pins become `Finset ℕ`, ordered dictionaries become
association lists in insertion order, and raised exceptions become
`Except`/`Option` error values, one constructor per raise site.
-/

namespace PicoTS

/-- Python exceptions raised by the embedded code, one constructor per raise
site. All constructors are `ValueError`s in the source unless noted. -/
inductive PyError where
  /-- `post`: "Requested Device Type not found." -/
  | unknownKind
  /-- `post`: "Requested pins were not available or not unique." -/
  | pinUnavailable
  /-- device constructors: "Expecting N pins. Found ..." -/
  | invalidPinCount
  /-- `change_pins` first check: "Not enough pins for {cls}. Found {n} expected {m}." -/
  | changeNotEnoughPins
  /-- `change_pins` second check: "Pin amounts do not match. Found {n} expected {m}." -/
  | changePinAmountMismatch
  /-- `change_pins` else branch: "Requested Device Type not found or pins were
  not already in use." -/
  | changeNotFound
  /-- subclass effectors `_action`: "Invalid command to ... Found action: ..." -/
  | invalidCommand
  /-- Python `KeyError`: `del _timer_actions[id]` on a missing key
  (`dequeue_from_timer`, timer.py line 54). -/
  | keyError
  /-- Python `TypeError`: `LightBeam._action` calls
  `enqueue_to_timer(id=..., callback_time=..., callback=...)` but the
  signature `enqueue_to_timer(id: int, callback)` (timer.py line 40) has no
  `callback_time` parameter. -/
  | typeErrorUnexpectedKeyword
  /-- Python `TypeError`: `CLS_MAP.get(name)(pin=pins)` on a LightBeam class
  omits the required positional argument `n`. -/
  | typeErrorMissingArgument
  /-- Python `TypeError`: `CLS_MAP.get(v["name"])` returned `None` and
  `construct_from_cfg` called it. -/
  | typeErrorNoneNotCallable
  deriving DecidableEq, Repr

/-- The device classes of `train_switch.py` (concrete subclasses of
`BinaryDevice`). -/
inductive DeviceKind where
  | emptySwitch
  | servoTrainSwitch
  | doubleServoTrainSwitch
  | continuousServoMotor
  | doubleContinuousServoMotor
  | dcMotor
  | stepperMotor
  | lightBeam
  | doubleLightBeam
  | relayTrainSwitch
  | onOff
  | doubleOnOff
  | disconnect
  | doubleDisconnect
  | unloader
  | doubleUnloader
  | invertedDisconnect
  | invertedUnloader
  | singleRelayTrainSwitch
  | invertedSingleRelayTrainSwitch
  | spurTrainSwitch
  | invertedSpurTrainSwitch
  | invertedRelayTrainSwitch
  deriving DecidableEq, Repr

namespace DeviceKind

/-- All concrete device classes, in definition order of `train_switch.py`. -/
def allKinds : List DeviceKind :=
  [emptySwitch, servoTrainSwitch, doubleServoTrainSwitch,
   continuousServoMotor, doubleContinuousServoMotor, dcMotor, stepperMotor,
   lightBeam, doubleLightBeam, relayTrainSwitch, onOff, doubleOnOff,
   disconnect, doubleDisconnect, unloader, doubleUnloader,
   invertedDisconnect, invertedUnloader, singleRelayTrainSwitch,
   invertedSingleRelayTrainSwitch, spurTrainSwitch, invertedSpurTrainSwitch,
   invertedRelayTrainSwitch]

/-- `required_pins` class attribute of each device class (inherited where the
subclass does not override it). -/
def required_pins : DeviceKind → ℕ
  | emptySwitch => 2
  | servoTrainSwitch => 1
  | doubleServoTrainSwitch => 2
  | continuousServoMotor => 1
  | doubleContinuousServoMotor => 2
  | dcMotor => 2
  | stepperMotor => 2
  | lightBeam => 1
  | doubleLightBeam => 2
  | relayTrainSwitch => 2
  | onOff => 1
  | doubleOnOff => 2
  | disconnect => 1
  | doubleDisconnect => 2
  | unloader => 1
  | doubleUnloader => 2
  | invertedDisconnect => 1
  | invertedUnloader => 1
  | singleRelayTrainSwitch => 1
  | invertedSingleRelayTrainSwitch => 1
  | spurTrainSwitch => 2
  | invertedSpurTrainSwitch => 2
  | invertedRelayTrainSwitch => 2

/-- `on_state` class attribute (EmptySwitch sets it to `None`). -/
def on_state : DeviceKind → Option String
  | emptySwitch => none
  | servoTrainSwitch | doubleServoTrainSwitch => some "straight"
  | continuousServoMotor | doubleContinuousServoMotor => some "next"
  | dcMotor | stepperMotor => some "next"
  | lightBeam | doubleLightBeam => some "on"
  | relayTrainSwitch | spurTrainSwitch | invertedSpurTrainSwitch
  | invertedRelayTrainSwitch => some "straight"
  | singleRelayTrainSwitch | invertedSingleRelayTrainSwitch => some "straight"
  | onOff | doubleOnOff | disconnect | doubleDisconnect | unloader
  | doubleUnloader | invertedDisconnect | invertedUnloader => some "on"

/-- `off_state` class attribute (EmptySwitch sets it to `None`). -/
def off_state : DeviceKind → Option String
  | emptySwitch => none
  | servoTrainSwitch | doubleServoTrainSwitch => some "turn"
  | continuousServoMotor | doubleContinuousServoMotor => some "last"
  | dcMotor | stepperMotor => some "last"
  | lightBeam | doubleLightBeam => some "off"
  | relayTrainSwitch | spurTrainSwitch | invertedSpurTrainSwitch
  | invertedRelayTrainSwitch => some "turn"
  | singleRelayTrainSwitch | invertedSingleRelayTrainSwitch => some "turn"
  | onOff | doubleOnOff | disconnect | doubleDisconnect | unloader
  | doubleUnloader | invertedDisconnect | invertedUnloader => some "off"

/-- Whether the class extends `StatelessBinaryDevice` (its `action` always
runs the effector and never mutates `state`); every other class extends
`StatefulBinaryDevice`. -/
def isStateless : DeviceKind → Bool
  | continuousServoMotor | doubleContinuousServoMotor
  | dcMotor | stepperMotor => true
  | _ => false

/-- `type(self).__name__` of each device class. -/
def kindName : DeviceKind → String
  | emptySwitch => "EmptySwitch"
  | servoTrainSwitch => "ServoTrainSwitch"
  | doubleServoTrainSwitch => "DoubleServoTrainSwitch"
  | continuousServoMotor => "ContinuousServoMotor"
  | doubleContinuousServoMotor => "DoubleContinuousServoMotor"
  | dcMotor => "DCMotor"
  | stepperMotor => "StepperMotor"
  | lightBeam => "LightBeam"
  | doubleLightBeam => "DoubleLightBeam"
  | relayTrainSwitch => "RelayTrainSwitch"
  | onOff => "OnOff"
  | doubleOnOff => "DoubleOnOff"
  | disconnect => "Disconnect"
  | doubleDisconnect => "DoubleDisconnect"
  | unloader => "Unloader"
  | doubleUnloader => "DoubleUnloader"
  | invertedDisconnect => "InvertedDisconnect"
  | invertedUnloader => "InvertedUnloader"
  | singleRelayTrainSwitch => "SingleRelayTrainSwitch"
  | invertedSingleRelayTrainSwitch => "InvertedSingleRelayTrainSwitch"
  | spurTrainSwitch => "SpurTrainSwitch"
  | invertedSpurTrainSwitch => "InvertedSpurTrainSwitch"
  | invertedRelayTrainSwitch => "InvertedRelayTrainSwitch"

end DeviceKind

/-- `CLS_MAP` (train_switch.py lines 926-931): the module members having
`required_pins == 2`, keyed by class name. -/
def CLS_MAP (name : String) : Option DeviceKind :=
  (DeviceKind.allKinds.filter (fun k => k.required_pins == 2)).find?
    (fun k => k.kindName == name)

/-- `DEFAULT_DEVICE = RelayTrainSwitch.__name__`. -/
def DEFAULT_DEVICE : String := "RelayTrainSwitch"

/-- Hardware side effects emitted by the device effectors. Lines of a device
are numbered in `self.pin` order (for `RelayTrainSwitch`, line 0 is
`yg_relay` and line 1 is `br_relay`). Sub-second sleeps are recorded in
milliseconds (`_BLINK = 0.1 s` is 100 ms). -/
inductive HwEffect where
  /-- `DigitalOutputDevice.on()` on the given line. -/
  | lineOn (line : ℕ)
  /-- `DigitalOutputDevice.off()` on the given line. -/
  | lineOff (line : ℕ)
  /-- `time.sleep` for the given number of milliseconds. -/
  | sleepMs (ms : ℕ)
  /-- `AngularServo.angle = angle` (`None` means no signal). -/
  | servoAngle (angle : Option ℤ)
  /-- `ContinousServo.on(speed=0.5 ∓ 0.45, t, wait=True)`; only the direction
  is modelled (`true` for the `on_state`, "next"). -/
  | servoSpin (forward : Bool)
  /-- `Servo.off()`. -/
  | servoOff
  /-- `Motor.on(speed=±1, t, wait=True)`; only the direction is modelled. -/
  | motorSpin (forward : Bool)
  /-- `Motor.off()`. -/
  | motorOff
  /-- `StepMotor.forward/backward(steps)`. -/
  | stepMotor (forward : Bool) (steps : ℕ)
  /-- `LightBeam.pixels_reset()`: blank the whole strip. -/
  | pixelsReset
  /-- `dequeue_from_timer(id(self))` succeeded (the id was registered). -/
  | dequeueSelf
  /-- `stop_timer()`: pause the shared periodic multiplexer. -/
  | muxStop
  /-- arm the one-shot safety `Timer` with the given period in ms
  (`Disconnect._action`, modelled in full by `Disconnect.step` below). -/
  | armOneShot (periodMs : ℕ)
  /-- `self.safe_stop.deinit()` of a pending one-shot when one is set
  (idempotent cancel; the full dynamics live in `Disconnect.step`). -/
  | cancelOneShot
  deriving DecidableEq, Repr

/-- Python truthiness test `not state` for an `Optional[str]`. -/
def pyFalsy : Option String → Bool
  | none => true
  | some s => s = ""

/-- `_BLINK = 0.1` seconds, in milliseconds. -/
def BLINK_MS : ℕ := 100

/-- `_SAFE_SHUTDOWN = 4` seconds. -/
def SAFE_SHUTDOWN : ℕ := 4

/-- `ServoTrainSwitch._MIN_ANGLE`. -/
def MIN_ANGLE : ℤ := 0

/-- `ServoTrainSwitch._MAX_ANGLE`. -/
def MAX_ANGLE : ℤ := 80

/-- `StepperMotor._STEPS` (the default `steps` attribute). -/
def STEPPER_STEPS : ℕ := 30

namespace DeviceKind

/-- The subclass effector `_action` of each device class: the hardware
effects it performs, or the exception it raises. `queued` says whether
`id(self)` is currently a key of `_timer_actions` (only LightBeam classes
consult the timer). Raises happen before any modelled effect is emitted in
every class (in `LightBeam._action`, `dequeue_from_timer` precedes
`pixels_reset`). -/
def rawAction (k : DeviceKind) (queued : Bool) (cmd : Option String) :
    Except PyError (List HwEffect) :=
  match k with
  | emptySwitch =>
      -- EmptySwitch._action returns the action unchanged for any input.
      .ok []
  | servoTrainSwitch | doubleServoTrainSwitch =>
      -- action_to_angle: off -> min_angle, on -> max_angle, None -> None.
      if cmd = off_state servoTrainSwitch then .ok [.servoAngle (some MIN_ANGLE)]
      else if cmd = on_state servoTrainSwitch then .ok [.servoAngle (some MAX_ANGLE)]
      else if cmd = none then .ok [.servoAngle none]
      else .error .invalidCommand
  | continuousServoMotor | doubleContinuousServoMotor =>
      if cmd = on_state continuousServoMotor then .ok [.servoSpin true]
      else if cmd = off_state continuousServoMotor then .ok [.servoSpin false]
      else if cmd = none then .ok [.servoOff]
      else .error .invalidCommand
  | dcMotor =>
      if cmd = on_state dcMotor then .ok [.motorSpin true]
      else if cmd = off_state dcMotor then .ok [.motorSpin false]
      else if cmd = none then .ok [.motorOff]
      else .error .invalidCommand
  | stepperMotor =>
      -- StepperMotor._action compares against DCMotor's states (same labels).
      if cmd = on_state dcMotor then .ok [.stepMotor true STEPPER_STEPS]
      else if cmd = off_state dcMotor then .ok [.stepMotor false STEPPER_STEPS]
      else if cmd = none then .ok []
      else .error .invalidCommand
  | lightBeam | doubleLightBeam =>
      if cmd = on_state lightBeam then
        -- enqueue_to_timer(id=..., callback_time=..., callback=...) does not
        -- match the signature enqueue_to_timer(id, callback).
        .error .typeErrorUnexpectedKeyword
      else if cmd = off_state lightBeam then
        if queued then .ok [.dequeueSelf, .pixelsReset] else .error .keyError
      else if cmd = none then
        if queued then .ok [.dequeueSelf, .pixelsReset] else .error .keyError
      else .error .invalidCommand
  | relayTrainSwitch | invertedRelayTrainSwitch =>
      if cmd = off_state relayTrainSwitch then
        .ok [.lineOff 1, .lineOn 1, .sleepMs BLINK_MS, .lineOff 1]
      else if cmd = on_state relayTrainSwitch then
        .ok [.lineOff 0, .lineOn 0, .sleepMs BLINK_MS, .lineOff 0]
      else if cmd = none then .ok []
      else .error .invalidCommand
  | spurTrainSwitch | invertedSpurTrainSwitch =>
      if cmd = off_state spurTrainSwitch then .ok [.lineOff 0, .lineOn 1]
      else if cmd = on_state spurTrainSwitch then .ok [.lineOff 1, .lineOn 0]
      else if cmd = none then .ok []
      else .error .invalidCommand
  | onOff | doubleOnOff | unloader | doubleUnloader | invertedUnloader =>
      if cmd = off_state onOff then .ok [.lineOff 0]
      else if cmd = on_state onOff then .ok [.lineOn 0]
      else if cmd = none then .ok []
      else .error .invalidCommand
  | singleRelayTrainSwitch | invertedSingleRelayTrainSwitch =>
      -- inherits OnOff._action but with straight/turn labels.
      if cmd = off_state singleRelayTrainSwitch then .ok [.lineOff 0]
      else if cmd = on_state singleRelayTrainSwitch then .ok [.lineOn 0]
      else if cmd = none then .ok []
      else .error .invalidCommand
  | disconnect | doubleDisconnect | invertedDisconnect =>
      if cmd = none ∨ cmd = off_state disconnect then
        .ok [.lineOff 0, .cancelOneShot]
      else if cmd = on_state disconnect then
        .ok [.muxStop, .lineOn 0, .armOneShot (SAFE_SHUTDOWN * 1000)]
      else .error .invalidCommand

/-- `custom_state_setter`: hardware effects performed inside the `state`
property setter, before the effector runs. -/
def stateSetterFx (k : DeviceKind) (state : Option String) : List HwEffect :=
  match k with
  | relayTrainSwitch | spurTrainSwitch | invertedSpurTrainSwitch
  | invertedRelayTrainSwitch =>
      -- RelayTrainSwitch.custom_state_setter: both relays off when None.
      if state = none then [.lineOff 1, .lineOff 0] else []
  | onOff | doubleOnOff | disconnect | doubleDisconnect | unloader
  | doubleUnloader | invertedDisconnect | invertedUnloader =>
      -- OnOff.custom_state_setter: relay off when the state is falsy.
      if pyFalsy state then [.lineOff 0] else []
  | _ => []

end DeviceKind

/-- Result of one `device.action(cmd)` call: the latched `state` after the
call, the exception that propagated (if any), whether the subclass effector
`_action` was invoked, and the hardware effects performed. -/
structure ActionOut where
  state : Option String
  raised : Option PyError
  effectorInvoked : Bool
  effects : List HwEffect
  deriving DecidableEq, Repr

/-- `StatefulBinaryDevice.action` (train_switch.py lines 156-175): skip when
the ordered action equals the previous state; otherwise set `state = action`
first (running `custom_state_setter`) and then invoke the subclass effector
`_action`. If the effector raises, the exception propagates with `state`
already latched to the new command. -/
def statefulAction ( eff : Option String → Except PyError (List HwEffect))
    (setterFx : Option String → List HwEffect)
    (state cmd : Option String) : ActionOut :=
  if state = cmd then
    { state := state, raised := none, effectorInvoked := false, effects := [] }
  else
    match eff cmd with
    | .ok fx =>
        { state := cmd, raised := none, effectorInvoked := true,
          effects := setterFx cmd ++ fx }
    | .error e =>
        { state := cmd, raised := some e, effectorInvoked := true,
          effects := setterFx cmd }

/-- `StatelessBinaryDevice.action` (train_switch.py lines 179-190): always
invoke the effector, never mutate `state`. -/
def statelessAction ( eff : Option String → Except PyError (List HwEffect))
    (state cmd : Option String) : ActionOut :=
  match eff cmd with
  | .ok fx =>
      { state := state, raised := none, effectorInvoked := true, effects := fx }
  | .error e =>
      { state := state, raised := some e, effectorInvoked := true, effects := [] }

/-- Dispatch `action` through the class hierarchy: stateless classes use
`StatelessBinaryDevice.action`, every other class uses
`StatefulBinaryDevice.action` with its own effector and state setter. -/
def kindAction (k : DeviceKind) (queued : Bool) (state cmd : Option String) :
    ActionOut :=
  if k.isStateless then statelessAction (k.rawAction queued) state cmd
  else statefulAction (k.rawAction queued) (k.stateSetterFx) state cmd

/-! ### The shared timer multiplexer, `src/timer.py` -/

/-- `int(SECONDS_PER_ACTION * SECONDS_TO_MILLISECONDS)` with
`SECONDS_PER_ACTION = 2` and `SECONDS_TO_MILLISECONDS = 1000`. -/
def ACTION_PERIOD_MS : ℕ := 2000

/-- Module state of `timer.py`: the keys of `_timer_actions` in insertion
order (the stored callbacks themselves are opaque) and the single hardware
`_TIMER`, `some p` when armed in periodic mode with period `p` ms and `none`
when disarmed. -/
structure TimerState where
  actions : List ℕ
  hw : Option ℕ
  deriving DecidableEq, Repr

/-- Module import state: empty `_timer_actions`, timer never initialized. -/
def TimerState.empty : TimerState := ⟨[], none⟩

/-- `stop_timer` (timer.py lines 35-37): `_TIMER.deinit()`. -/
def stop_timer (s : TimerState) : TimerState := { s with hw := none }

/-- `start_timer` (timer.py lines 18-33): when `_timer_actions` is nonempty,
arm the periodic timer with period `2000 * len(_timer_actions)` ms; otherwise
fall through to `stop_timer`. -/
def start_timer (s : TimerState) : TimerState :=
  if 0 < s.actions.length then
    { s with hw := some (ACTION_PERIOD_MS * s.actions.length) }
  else stop_timer s

/-- Python dict insertion on the key list: an existing key keeps its
position, a new key is appended. -/
def dictInsertKey (id : ℕ) (l : List ℕ) : List ℕ :=
  if id ∈ l then l else l ++ [id]

/-- `enqueue_to_timer` (timer.py lines 40-49): stop, insert the action under
`id`, restart. The signature takes no duration argument. -/
def enqueue_to_timer (s : TimerState) (id : ℕ) : TimerState :=
  let s1 := stop_timer s
  start_timer { s1 with actions := dictInsertKey id s1.actions }

/-- `dequeue_from_timer` (timer.py lines 52-55): stop, `del
_timer_actions[id]`, restart. The `del` raises `KeyError` for a missing key,
after `stop_timer` has already run, leaving the hardware timer disarmed. -/
def dequeue_from_timer (s : TimerState) (id : ℕ) :
    TimerState × Option PyError :=
  let s1 := stop_timer s
  if id ∈ s1.actions then
    (start_timer { s1 with actions := s1.actions.erase id }, none)
  else (s1, some .keyError)

/-! ### The Disconnect safety interlock, `train_switch.py` lines 788-831

A transition system for one `Disconnect` device together with the one-shot
hardware timers it arms. The shared periodic multiplexer that
`Disconnect._action` pauses (`stop_timer`) and `safe_close_relay` resumes
(`start_timer`) lives in `TimerState` above and is orthogonal to this state,
so it is not carried here. -/

namespace Disconnect

/-- State of one Disconnect device: the latched `BinaryDevice.__state`, the
logical relay output (`DigitalOutputDevice.value == 1`), the `self.safe_stop`
attribute (which may still reference an already-expired timer, since
`safe_close_relay` never clears it), the outstanding (armed, unexpired)
one-shot timers as (id, period ms) pairs, and a counter for fresh timer
ids. -/
structure DState where
  devState : Option String
  relayOn : Bool
  safe_stop : Option ℕ
  armed : List (ℕ × ℕ)
  nextId : ℕ
  deriving DecidableEq, Repr

/-- Construction state: `state = None`, relay written low
(`initial_value=False`), no one-shot pending. -/
def DState.initial : DState := ⟨none, false, none, [], 0⟩

/-- Events: an `action(cmd)` call, the hardware expiry of the one-shot timer
with id `t` (which runs `safe_close_relay`), and `close()`. -/
inductive Event where
  | act (cmd : Option String)
  | fire (t : ℕ)
  | close
  deriving DecidableEq, Repr

/-- The cancellation branch of `Disconnect._action`: when `self.safe_stop`
is set, `deinit` it (it stops being outstanding if it still was) and clear
the attribute. -/
def cancelPending (s : DState) : DState :=
  match s.safe_stop with
  | none => s
  | some t =>
      { s with safe_stop := none, armed := s.armed.filter (fun a => a.1 ≠ t) }

/-- `Disconnect._action` (train_switch.py lines 803-825). On `None`/off:
relay off, cancel any pending one-shot. On on: pause the shared multiplexer,
energize the relay, arm a fresh one-shot for `SAFE_SHUTDOWN` seconds
(overwriting `self.safe_stop` without `deinit`). Anything else raises
`ValueError` after the state setter already ran. -/
def rawStep (s : DState) (cmd : Option String) : DState :=
  if cmd = none ∨ cmd = some "off" then
    cancelPending { s with relayOn := false }
  else if cmd = some "on" then
    { s with relayOn := true,
             safe_stop := some s.nextId,
             armed := s.armed ++ [(s.nextId, SAFE_SHUTDOWN * 1000)],
             nextId := s.nextId + 1 }
  else s

/-- One step of the Disconnect system. `act cmd` is
`StatefulBinaryDevice.action`: skip when `cmd` equals the latched state,
otherwise assign the state (running `OnOff.custom_state_setter`, which turns
the relay off for a falsy value) and then run `Disconnect._action`; a
`ValueError` from a foreign command propagates with the state latched.
`fire t` is the expiry of an outstanding one-shot: it runs
`safe_close_relay`, which de-energizes and forces `state = off_state` only
if the relay still reads energized. `close` is `__del__`: relay off and
`deinit` of `self.safe_stop` if set. -/
def step (s : DState) : Event → DState
  | .act cmd =>
      if s.devState = cmd then s
      else
        let s1 : DState :=
          { s with devState := cmd,
                   relayOn := if pyFalsy cmd then false else s.relayOn }
        rawStep s1 cmd
  | .fire t =>
      if t ∈ s.armed.map Prod.fst then
        let s1 : DState := { s with armed := s.armed.filter (fun a => a.1 ≠ t) }
        if s1.relayOn then
          { s1 with relayOn := false, devState := some "off" }
        else s1
      else s
  | .close =>
      let s1 : DState := { s with relayOn := false }
      match s1.safe_stop with
      | none => s1
      | some t => { s1 with armed := s1.armed.filter (fun a => a.1 ≠ t) }

/-- Run a sequence of events from the construction state. -/
def run (events : List Event) : DState :=
  events.foldl step DState.initial

end Disconnect

/-! ### The device registry and pin pool, `src/server_methods.py` -/

/-- Python `sorted` on integers: `tuple(sorted(pin))` in
`BinaryDevice.__init__` and the `inputs_int.sort()` of `convert_csv_tuples`
(on a total order, every sort computes this same ascending arrangement). -/
def sortPins (l : List ℕ) : List ℕ := l.insertionSort (· ≤ ·)

/-- A live device: its class, the sorted pin tuple `self.__pin`, and the
latched `self.__state`. -/
structure Device where
  kind : DeviceKind
  pins : List ℕ
  state : Option String
  deriving DecidableEq, Repr

/-- Constructing `cls(pin=pins)` as `post`, `change_pins` and
`construct_from_cfg` do. LightBeam classes fail at the call for the missing
required argument `n`; otherwise `BinaryDevice.__init__` sorts the pins and
the subclass checks `len(self.pin) == self.get_required_pins`, raising
otherwise. A fresh device has `state = None`. -/
def constructDevice (k : DeviceKind) (pin : List ℕ) : Except PyError Device :=
  if k = .lightBeam ∨ k = .doubleLightBeam then .error .typeErrorMissingArgument
  else
    let pins := sortPins pin
    if pins.length = k.required_pins then .ok ⟨k, pins, none⟩
    else .error .invalidPinCount

/-- `ServerMethods.GPIO_PINS = set(range(29))`. -/
def GPIO_PINS : Finset ℕ := Finset.range 29

/-- The global server state: `ServerMethods.devices` (an `OrderedDict` keyed
by `str(tuple(pins))`, the key modelled by the pin tuple itself since
Python's `str` is injective on int tuples) and `ServerMethods.pin_pool`. -/
structure ServerState where
  devices : List (List ℕ × Device)
  pin_pool : Finset ℕ
  deriving DecidableEq

/-- Process start: no devices, the full pin universe free. -/
def ServerState.initial : ServerState := ⟨[], GPIO_PINS⟩

/-- `OrderedDict` lookup. -/
def dictGet {β : Type} (key : List ℕ) : List (List ℕ × β) → Option β
  | [] => none
  | kv :: l => if kv.1 = key then some kv.2 else dictGet key l

/-- `OrderedDict.update({key: v})`: replace in place when the key exists,
otherwise append. -/
def dictUpdate {β : Type} (key : List ℕ) (v : β) :
    List (List ℕ × β) → List (List ℕ × β)
  | [] => [(key, v)]
  | kv :: l => if kv.1 = key then (key, v) :: l else kv :: dictUpdate key v l

/-- `OrderedDict.pop(key, None)`: the removed value (if any) and the
remaining entries in order. -/
def dictPop {β : Type} (key : List ℕ) :
    List (List ℕ × β) → Option β × List (List ℕ × β)
  | [] => (none, [])
  | kv :: l =>
      if kv.1 = key then (some kv.2, l)
      else
        let r := dictPop key l
        (r.1, kv :: r.2)

/-- `post` (src/server_methods.py lines 240-258): the device type must be a
key of `CLS_MAP`; the (sorted) pins must all be in the pool and mutually
distinct; then the device is constructed (which may still raise for a wrong
pin count), appended to the registry under `str(_pins)`, and its
`pin_list` removed from the pool. Every raise happens before any mutation. -/
def post (s : ServerState) (pins : List ℕ) (device_type : String) :
    Except PyError ServerState :=
  match CLS_MAP device_type with
  | none => .error .unknownKind
  | some cls =>
      let _pins := sortPins pins
      if (∀ p ∈ _pins, p ∈ s.pin_pool) ∧ _pins.Nodup then
        match constructDevice cls _pins with
        | .error e => .error e
        | .ok added =>
            .ok { devices := dictUpdate _pins added s.devices,
                  pin_pool := s.pin_pool \ added.pins.toFinset }
      else .error .pinUnavailable

/-- `delete` (app/server_methods.py lines 140-151): pop the device at
`str(_pins)` if present, close it, and return its pins to the pool. -/
def delete (s : ServerState) (pins : List ℕ) : ServerState :=
  let _pins := sortPins pins
  match dictPop _pins s.devices with
  | (none, _) => s
  | (some deleted, rest) =>
      { devices := rest, pin_pool := s.pin_pool ∪ deleted.pins.toFinset }

/-- Modelled from the spec: `light_beam_factory` and `LIGHT_BEAM_NAME` are
imported by `server_methods.py` from `train_switch` but are absent from the
source snapshot. Per the spec (§2, §4.2), a device-type name containing the
LightBeam marker resolves to a LightBeam class (one pin for the plain
variant, two for the Double variant); other names resolve through
`CLS_MAP`, exactly as `change_pins` line 120-124 dispatches. -/
def resolveDeviceType (device_type : String) : Option DeviceKind :=
  if device_type = "LightBeam" then some .lightBeam
  else if device_type = "DoubleLightBeam" then some .doubleLightBeam
  else CLS_MAP device_type

/-- `change_pins` (src/server_methods.py lines 114-154): needs a resolvable
new class and an existing entry at the pins; the pin tuple length must equal
the new class's `required_pins`, and the old device's `required_pins` must
match the new class's; only then is the old device closed and replaced in
place. Both pin-count checks raise before any mutation. -/
def change_pins (s : ServerState) (pins : List ℕ) (device_type : String) :
    Except PyError ServerState :=
  let new_cls := resolveDeviceType device_type
  let _pins := sortPins pins
  match new_cls with
  | none => .error .changeNotFound
  | some cls =>
      match dictGet _pins s.devices with
      | none => .error .changeNotFound
      | some current_device =>
          if _pins.length ≠ cls.required_pins then
            .error .changeNotEnoughPins
          else if current_device.kind.required_pins ≠ cls.required_pins then
            .error .changePinAmountMismatch
          else
            match constructDevice cls _pins with
            | .error e => .error e
            | .ok new_device =>
                .ok { s with devices := dictUpdate _pins new_device s.devices }

/-- A create (`post`) or remove (`delete`) request, as the HTTP layer issues
them. -/
inductive Op where
  | create (pins : List ℕ) (device_type : String)
  | remove (pins : List ℕ)

/-- Apply one request: a raise inside `post` propagates to the route handler
before any mutation, leaving the globals unchanged. -/
def applyOp (s : ServerState) : Op → ServerState
  | .create pins dt =>
      match post s pins dt with
      | .ok s1 => s1
      | .error _ => s
  | .remove pins => delete s pins

/-- Run a request sequence from process start. -/
def runOps (ops : List Op) : ServerState :=
  ops.foldl applyOp ServerState.initial

/-! ### The profile store, `src/server_methods.py` -/

/-- One value of the saved profile JSON: `BinaryDevice.to_json()`, i.e.
`{pins, state, name}`. -/
structure CfgEntry where
  pins : List ℕ
  state : Option String
  name : String
  deriving DecidableEq, Repr

/-- `to_json` (train_switch.py lines 103-116). -/
def deviceToJson (d : Device) : CfgEntry :=
  ⟨d.pins, d.state, d.kind.kindName⟩

/-- A saved profile document: the flat map from `str(pins)` to entry, plus
the explicit `order` array that `save_json` appends because the JSON decoder
does not preserve key order. -/
structure Profile where
  entries : List (List ℕ × CfgEntry)
  order : List (List ℕ)
  deriving DecidableEq, Repr

/-- The profile payload written by `save_json` (src/server_methods.py lines
207-222): `devices_to_json` of the registry, with `order` listing its keys
in insertion order. -/
def saveProfile (devices : List (List ℕ × Device)) : Profile :=
  ⟨devices.map (fun kv => (kv.1, deviceToJson kv.2)),
   devices.map Prod.fst⟩

/-- The reordering loop of `load_json` (lines 185-188): rebuild the config
following the saved `order`; `_cfg[i]` raises `KeyError` for a missing key.
(For an order with duplicate keys Python would overwrite dict entries; saved
orders are duplicate-free.) -/
def reorderCfg (order : List (List ℕ)) (cfg : List (List ℕ × CfgEntry)) :
    Except PyError (List (List ℕ × CfgEntry)) :=
  match order with
  | [] => .ok []
  | k :: rest =>
      match dictGet k cfg with
      | none => .error .keyError
      | some e =>
          match reorderCfg rest cfg with
          | .error err => .error err
          | .ok tail => .ok ((k, e) :: tail)

/-- First loop of `construct_from_cfg` (lines 433-438): for each entry,
construct `CLS_MAP.get(v["name"])(pin=tuple(v["pins"]))` and key it by
`str(tuple(v["pins"]))`. -/
def constructLoop : List (List ℕ × CfgEntry) →
    Except PyError (List (List ℕ × Device))
  | [] => .ok []
  | (_, v) :: rest =>
      match CLS_MAP v.name with
      | none => .error .typeErrorNoneNotCallable
      | some cls =>
          match constructDevice cls v.pins with
          | .error e => .error e
          | .ok d =>
              match constructLoop rest with
              | .error e => .error e
              | .ok tail => .ok ((v.pins, d) :: tail)

/-- Second loop of `construct_from_cfg` (lines 440-442): for each constructed
device, `v.action(cfg[str(k)]["state"])`. Fresh devices are not registered
with the timer, so the LightBeam queue flag is false. -/
def setStatesLoop (cfg : List (List ℕ × CfgEntry)) :
    List (List ℕ × Device) → Except PyError (List (List ℕ × Device))
  | [] => .ok []
  | (k, d) :: rest =>
      match dictGet k cfg with
      | none => .error .keyError
      | some e =>
          let out := kindAction d.kind false d.state e.state
          match out.raised with
          | some err => .error err
          | none =>
              match setStatesLoop cfg rest with
              | .error err => .error err
              | .ok tail => .ok ((k, { d with state := out.state }) :: tail)

/-- `construct_from_cfg` (src/server_methods.py lines 428-443). -/
def construct_from_cfg (cfg : List (List ℕ × CfgEntry)) :
    Except PyError (List (List ℕ × Device)) :=
  match constructLoop cfg with
  | .error e => .error e
  | .ok devices => setStatesLoop cfg devices

/-- The device-reconstruction core of `load_json` (lines 172-194): reorder
the decoded map by the saved `order`, then `construct_from_cfg`. (Closing
the old devices and recomputing the pin pool act on the other globals.) -/
def loadProfile (p : Profile) : Except PyError (List (List ℕ × Device)) :=
  match reorderCfg p.order p.entries with
  | .error e => .error e
  | .ok cfg => construct_from_cfg cfg

/-- A `change_pins` request as the route handler sees it: a raise inside
`change_pins` propagates before any mutation, leaving the globals
unchanged. -/
def applyChange (s : ServerState) (pins : List ℕ) (device_type : String) :
    ServerState :=
  match change_pins s pins device_type with
  | .ok s1 => s1
  | .error _ => s

/-- All pins owned by the live devices, as a finite set. -/
def devicesPins (devs : List (List ℕ × Device)) : Finset ℕ :=
  devs.foldr (fun kv acc => kv.2.pins.toFinset ∪ acc) ∅

/-- Two registry entries own disjoint pin sets. -/
def PinsDisj (a b : List ℕ × Device) : Prop :=
  ∀ p ∈ a.2.pins, p ∉ b.2.pins

/-- The registry/pool invariant: keys are each device's own pin tuple, pin
tuples are nonempty and duplicate-free with duplicate-free keys, pin sets of
distinct devices are pairwise disjoint, owned pins are outside the pool, and
the pool plus all owned pins is exactly the GPIO universe. -/
structure PinInv (s : ServerState) : Prop where
  keysMatch : ∀ kv ∈ s.devices, kv.1 = kv.2.pins
  pinsNodup : ∀ kv ∈ s.devices, kv.2.pins.Nodup
  pinsNonempty : ∀ kv ∈ s.devices, kv.2.pins ≠ []
  keysNodup : (s.devices.map Prod.fst).Nodup
  disj : s.devices.Pairwise PinsDisj
  poolDisj : ∀ kv ∈ s.devices, ∀ p ∈ kv.2.pins, p ∉ s.pin_pool
  poolUnion : s.pin_pool ∪ devicesPins s.devices = GPIO_PINS

/-- A latched state reachable through the server methods, which only ever
command `on_state`, `off_state` or `None`. -/
def Device.validState (d : Device) : Prop :=
  d.state = none ∨ d.state = d.kind.on_state ∨ d.state = d.kind.off_state

instance (d : Device) : Decidable d.validState := by
  unfold Device.validState
  infer_instance

/-- What holds of every device a live registry can contain: a creatable
(`CLS_MAP`, hence two-pin) class other than `DoubleLightBeam` (whose
constructor always raises for the missing argument `n`, so it can never be
live), a sorted pin pair, no latched state for stateless classes (their
`action` never assigns `state`), and a reachable latched state. -/
def Device.wfStored (d : Device) : Prop :=
  d.kind.required_pins = 2 ∧ d.kind ≠ .doubleLightBeam ∧
  d.pins = sortPins d.pins ∧ d.pins.length = 2 ∧
  (d.kind.isStateless = true → d.state = none) ∧ d.validState

instance (d : Device) : Decidable d.wfStored := by
  unfold Device.wfStored
  infer_instance

/-! ## Lemmas about sorting and the ordered-dict primitives -/

theorem sortPins_perm (l : List ℕ) : (sortPins l).Perm l :=
  List.perm_insertionSort _ l

theorem sortPins_sorted (l : List ℕ) : (sortPins l).Sorted (· ≤ ·) :=
  List.sorted_insertionSort _ l

theorem sortPins_idem (l : List ℕ) : sortPins (sortPins l) = sortPins l :=
  (sortPins_sorted l).insertionSort_eq

theorem sortPins_toFinset (l : List ℕ) : (sortPins l).toFinset = l.toFinset := by
  ext a
  simp [List.mem_toFinset, (sortPins_perm l).mem_iff]

theorem sortPins_nodup {l : List ℕ} (h : l.Nodup) : (sortPins l).Nodup :=
  ((sortPins_perm l).nodup_iff).mpr h

theorem sortPins_length (l : List ℕ) : (sortPins l).length = l.length :=
  (sortPins_perm l).length_eq

theorem sortPins_mem {a : ℕ} {l : List ℕ} : a ∈ sortPins l ↔ a ∈ l :=
  (sortPins_perm l).mem_iff

theorem dictUpdate_of_notMem {β : Type} {key : List ℕ} {v : β} :
    ∀ {l : List (List ℕ × β)}, key ∉ l.map Prod.fst →
      dictUpdate key v l = l ++ [(key, v)]
  | [], _ => rfl
  | kv :: l, h => by
      have h1 : ¬ kv.1 = key := by
        intro e
        exact h (by simp [← e])
      have h2 : key ∉ l.map Prod.fst := by
        intro hm
        exact h (by simp [hm])
      simp only [dictUpdate, h1, if_false]
      rw [dictUpdate_of_notMem h2]
      simp

theorem dictPop_some {β : Type} {key : List ℕ} {d : β} :
    ∀ {l rest : List (List ℕ × β)}, dictPop key l = (some d, rest) →
      ∃ pre suf, l = pre ++ (key, d) :: suf ∧ rest = pre ++ suf
  | [], _, h => by simp [dictPop] at h
  | kv :: l, rest, h => by
      by_cases h1 : kv.1 = key
      · simp only [dictPop, h1, if_true] at h
        have hv : some kv.2 = some d := congrArg Prod.fst h
        have hr : l = rest := congrArg Prod.snd h
        have hkv : kv = (key, d) := by
          cases kv with
          | mk a b =>
            simp only at h1 hv
            cases h1
            cases Option.some.inj hv
            rfl
        exact ⟨[], l, by simp [hkv], by simp [hr]⟩
      · simp only [dictPop, h1, if_false] at h
        have hv : (dictPop key l).1 = some d := congrArg Prod.fst h
        have hr : kv :: (dictPop key l).2 = rest := congrArg Prod.snd h
        have h2 : dictPop key l = (some d, (dictPop key l).2) := by
          rw [← hv]
        obtain ⟨pre, suf, hl, hrec⟩ := dictPop_some h2
        exact ⟨kv :: pre, suf, by simp [hl], by rw [← hr, hrec]; simp⟩

theorem dictGet_cons_self {β : Type} {key : List ℕ} {v : β}
    {l : List (List ℕ × β)} : dictGet key ((key, v) :: l) = some v := by
  simp [dictGet]

theorem dictGet_cons_ne {β : Type} {key : List ℕ} (kv : List ℕ × β)
    {l : List (List ℕ × β)} (h : ¬ kv.1 = key) :
    dictGet key (kv :: l) = dictGet key l := by
  simp [dictGet, h]

theorem devicesPins_nil : devicesPins [] = ∅ := rfl

theorem devicesPins_cons (kv : List ℕ × Device) (l : List (List ℕ × Device)) :
    devicesPins (kv :: l) = kv.2.pins.toFinset ∪ devicesPins l := rfl

theorem devicesPins_append (l1 l2 : List (List ℕ × Device)) :
    devicesPins (l1 ++ l2) = devicesPins l1 ∪ devicesPins l2 := by
  induction l1 with
  | nil => simp [devicesPins_nil]
  | cons kv t ih =>
      simp [devicesPins_cons, ih, Finset.union_assoc]

theorem mem_devicesPins {p : ℕ} {l : List (List ℕ × Device)} :
    p ∈ devicesPins l ↔ ∃ kv ∈ l, p ∈ kv.2.pins := by
  induction l with
  | nil => simp [devicesPins_nil]
  | cons kv t ih =>
      simp [devicesPins_cons, ih, List.mem_toFinset]

/-! ## The pin-exclusivity invariant (claim C1) -/

theorem PinsDisj.symm {a b : List ℕ × Device} (h : PinsDisj a b) :
    PinsDisj b a := by
  intro p hp hq
  exact h p hq hp

theorem pinInv_initial : PinInv ServerState.initial := by
  refine ⟨?_, ?_, ?_, ?_, ?_, ?_, ?_⟩ <;>
    simp [ServerState.initial, devicesPins_nil]

theorem CLS_MAP_required {n : String} {k : DeviceKind}
    (h : CLS_MAP n = some k) : k.required_pins = 2 := by
  unfold CLS_MAP at h
  have hmem := List.mem_of_find?_eq_some h
  have := (List.mem_filter.mp hmem).2
  simpa using this

theorem pinInv_post {s s' : ServerState} {pins : List ℕ} {dt : String}
    (hI : PinInv s) (h : post s pins dt = .ok s') : PinInv s' := by
  unfold post at h
  cases hc : CLS_MAP dt with
  | none => rw [hc] at h; exact absurd h (by simp)
  | some cls =>
    rw [hc] at h
    simp only at h
    split at h
    case isFalse => exact absurd h (by simp)
    case isTrue hcond =>
      obtain ⟨havail, hnodup⟩ := hcond
      cases hcd : constructDevice cls (sortPins pins) with
      | error e => rw [hcd] at h; exact absurd h (by simp)
      | ok added =>
        rw [hcd] at h
        simp only [Except.ok.injEq] at h
        -- invert the constructor
        unfold constructDevice at hcd
        split at hcd
        case isTrue => exact absurd hcd (by simp)
        case isFalse hlb =>
          simp only [sortPins_idem] at hcd
          split at hcd
          case isFalse => exact absurd hcd (by simp)
          case isTrue hlen =>
            simp only [Except.ok.injEq] at hcd
            -- notation
            set ps := sortPins pins with hps
            have hpins : added.pins = ps := by
              rw [← hcd]
            have hreq : cls.required_pins = 2 := CLS_MAP_required hc
            have hlen2 : ps.length = 2 := by
              rw [hlen, hreq]
            have hne : ps ≠ [] := by
              intro e
              rw [e] at hlen2
              simp at hlen2
            -- the new key is fresh
            have hfresh : ps ∉ s.devices.map Prod.fst := by
              intro hmem
              obtain ⟨kv, hkv, hk⟩ := List.mem_map.mp hmem
              have hkpins : kv.2.pins = ps := by
                rw [← hI.keysMatch kv hkv, hk]
              obtain ⟨p, hp⟩ := List.exists_mem_of_ne_nil _ (hkpins ▸ hne)
              exact hI.poolDisj kv hkv p hp (havail p (hkpins ▸ hp))
            have hupd : dictUpdate ps added s.devices =
                s.devices ++ [(ps, added)] := dictUpdate_of_notMem hfresh
            have hsub : ps.toFinset ⊆ s.pin_pool := by
              intro p hp
              exact havail p (List.mem_toFinset.mp hp)
            subst h
            constructor
            · -- keysMatch
              intro kv hkv
              rw [hupd] at hkv
              rcases List.mem_append.mp hkv with h1 | h1
              · exact hI.keysMatch kv h1
              · simp only [List.mem_singleton] at h1
                rw [h1]
                exact hpins.symm
            · -- pinsNodup
              intro kv hkv
              rw [hupd] at hkv
              rcases List.mem_append.mp hkv with h1 | h1
              · exact hI.pinsNodup kv h1
              · simp only [List.mem_singleton] at h1
                rw [h1]
                simpa [hpins] using hnodup
            · -- pinsNonempty
              intro kv hkv
              rw [hupd] at hkv
              rcases List.mem_append.mp hkv with h1 | h1
              · exact hI.pinsNonempty kv h1
              · simp only [List.mem_singleton] at h1
                rw [h1]
                simpa [hpins] using hne
            · -- keysNodup
              rw [hupd]
              simp only [List.map_append, List.map_cons, List.map_nil]
              rw [List.nodup_append]
              refine ⟨hI.keysNodup, List.nodup_singleton _, ?_⟩
              intro a ha hb
              simp only [List.mem_singleton] at hb
              rw [hb] at ha
              exact hfresh ha
            · -- disj
              rw [hupd, List.pairwise_append]
              refine ⟨hI.disj, List.pairwise_singleton _ _, ?_⟩
              intro a ha b hb p hpa hpb
              simp only [List.mem_singleton] at hb
              rw [hb] at hpb
              simp only at hpb
              rw [hpins] at hpb
              exact hI.poolDisj a ha p hpa (havail p hpb)
            · -- poolDisj
              intro kv hkv p hp hpool
              rw [hupd] at hkv
              simp only [Finset.mem_sdiff] at hpool
              rcases List.mem_append.mp hkv with h1 | h1
              · exact hI.poolDisj kv h1 p hp hpool.1
              · simp only [List.mem_singleton] at h1
                rw [h1] at hp
                simp only at hp
                rw [hpins] at hp
                exact hpool.2 (by rw [hpins]; exact List.mem_toFinset.mpr hp)
            · -- poolUnion
              rw [hupd, devicesPins_append, devicesPins_cons, devicesPins_nil,
                hpins, Finset.union_empty, ← hI.poolUnion]
              ext a
              simp only [Finset.mem_union, Finset.mem_sdiff]
              constructor
              · rintro (⟨h1, _⟩ | h1 | h1) <;> tauto
              · rintro (h1 | h1)
                · by_cases ha : a ∈ ps.toFinset <;> tauto
                · tauto

theorem pinInv_delete {s : ServerState} {pins : List ℕ}
    (hI : PinInv s) : PinInv (delete s pins) := by
  cases hdp : dictPop (sortPins pins) s.devices with
  | mk v rest =>
    cases v with
    | none =>
      have hd : delete s pins = s := by
        simp only [delete, hdp]
      rw [hd]
      exact hI
    | some deleted =>
      have hd : delete s pins =
          { devices := rest, pin_pool := s.pin_pool ∪ deleted.pins.toFinset } := by
        simp only [delete, hdp]
      rw [hd]
      obtain ⟨pre, suf, hl, hr⟩ := dictPop_some hdp
      subst hr
      have hmemdel : (sortPins pins, deleted) ∈ s.devices := by
        rw [hl]
        simp
      have hsub : (pre ++ suf).Sublist s.devices := by
        rw [hl]
        exact (List.sublist_cons_self _ _).append_left pre
      have hmem : ∀ kv ∈ pre ++ suf, kv ∈ s.devices := fun kv hkv =>
        hsub.mem hkv
      have hmid : List.Pairwise PinsDisj
          ((sortPins pins, deleted) :: (pre ++ suf)) := by
        rw [← List.pairwise_middle (fun h => PinsDisj.symm h), ← hl]
        exact hI.disj
      constructor
      · exact fun kv hkv => hI.keysMatch kv (hmem kv hkv)
      · exact fun kv hkv => hI.pinsNodup kv (hmem kv hkv)
      · exact fun kv hkv => hI.pinsNonempty kv (hmem kv hkv)
      · exact ((hsub.map Prod.fst).nodup hI.keysNodup)
      · exact hmid.of_cons
      · -- poolDisj: remaining pins avoid both the old pool and the returned pins
        intro kv hkv p hp hpool
        simp only [Finset.mem_union] at hpool
        rcases hpool with h1 | h1
        · exact hI.poolDisj kv (hmem kv hkv) p hp h1
        · have hdisj := (List.pairwise_cons.mp hmid).1 kv hkv
          exact hdisj p (List.mem_toFinset.mp h1) hp
      · -- poolUnion
        have hpins : devicesPins s.devices =
            devicesPins pre ∪ (deleted.pins.toFinset ∪ devicesPins suf) := by
          rw [hl, devicesPins_append, devicesPins_cons]
        rw [← hI.poolUnion, hpins, devicesPins_append]
        ext a
        simp only [Finset.mem_union]
        tauto

theorem pinInv_applyOp {s : ServerState} (op : Op) (hI : PinInv s) :
    PinInv (applyOp s op) := by
  cases op with
  | create pins dt =>
      cases hp : post s pins dt with
      | ok s1 =>
          have ha : applyOp s (.create pins dt) = s1 := by
            simp only [applyOp, hp]
          rw [ha]
          exact pinInv_post hI hp
      | error e =>
          have ha : applyOp s (.create pins dt) = s := by
            simp only [applyOp, hp]
          rw [ha]
          exact hI
  | remove pins => exact pinInv_delete hI

theorem pinInv_runOps (ops : List Op) : PinInv (runOps ops) := by
  suffices h : ∀ (l : List Op) (s : ServerState), PinInv s →
      PinInv (l.foldl applyOp s) by
    exact h ops ServerState.initial pinInv_initial
  intro l
  induction l with
  | nil => exact fun s hs => hs
  | cons op t ih =>
      intro s hs
      exact ih _ (pinInv_applyOp op hs)

/-! ## Claim theorems -/

/-- C1: for every finite sequence of create (`post`) and remove (`delete`)
operations from the initial state (empty registry, pin pool the full GPIO
universe 0..28), at every intermediate state (each such state being `runOps`
of a prefix of the sequence) the pin sets of distinct live devices are
pairwise disjoint, no live device's pin is in the pin pool, and the pin pool
together with all live devices' pins equals the fixed universe. -/
theorem C1_pin_exclusivity (ops : List Op) :
    (runOps ops).devices.Pairwise PinsDisj ∧
    (∀ kv ∈ (runOps ops).devices, ∀ p ∈ kv.2.pins, p ∉ (runOps ops).pin_pool) ∧
    (runOps ops).pin_pool ∪ devicesPins (runOps ops).devices = GPIO_PINS :=
  ⟨(pinInv_runOps ops).disj, (pinInv_runOps ops).poolDisj,
    (pinInv_runOps ops).poolUnion⟩

/-- C5: calling `action(s)` on a Stateful device already in state `s` — for
any effector and state setter, and in particular for every stateful device
class through `kindAction` — skips the effector entirely, performs no
hardware effect, and leaves the latched state equal to `s`. -/
theorem C5_idempotent_noop :
    (∀ ( eff : Option String → Except PyError (List HwEffect))
        (setterFx : Option String → List HwEffect) (s : Option String),
      statefulAction eff setterFx s s =
        { state := s, raised := none, effectorInvoked := false, effects := [] }) ∧
    (∀ (k : DeviceKind) (queued : Bool) (s : Option String),
      k.isStateless = false →
      kindAction k queued s s =
        { state := s, raised := none, effectorInvoked := false, effects := [] }) := by
  constructor
  · intro eff setterFx s
    simp [statefulAction]
  · intro k queued s h
    simp [kindAction, h, statefulAction]

/-- Witness for C5 at a concrete input: a RelayTrainSwitch latched
"straight" ordered "straight" again. -/
theorem C5_idempotent_noop_witness :
    DeviceKind.relayTrainSwitch.isStateless = false ∧
    kindAction .relayTrainSwitch false (some "straight") (some "straight") =
      { state := some "straight", raised := none, effectorInvoked := false,
        effects := [] } :=
  ⟨by decide,
    C5_idempotent_noop.2 .relayTrainSwitch false (some "straight") (by decide)⟩

/-- C3 as stated is false on the code: `StatefulBinaryDevice.action` latches
`state = cmd` before invoking the effector, so when the effector raises, the
exception propagates with the state already changed. Concretely, a
RelayTrainSwitch in state "straight" given the foreign command "zzz"
propagates the effector's ValueError, yet its latched state afterwards is
"zzz", not the unchanged "straight" the claim requires. -/
theorem C3_counterexample :
    (kindAction .relayTrainSwitch false (some "straight") (some "zzz")).raised =
      some .invalidCommand ∧
    (kindAction .relayTrainSwitch false (some "straight") (some "zzz")).state =
      some "zzz" := by
  decide

/-- C3 amended: for every Stateful device and command `cmd` different from
its current state, if the effector `_action(cmd)` raises, the exception
propagates to the caller and the device's latched state is `cmd` — the state
is recorded before the effector runs, not after it succeeds. -/
theorem C3_amended ( eff : Option String → Except PyError (List HwEffect))
    (setterFx : Option String → List HwEffect) (st cmd : Option String)
    (e : PyError) (hne : st ≠ cmd) (heff : eff cmd = .error e) :
    statefulAction eff setterFx st cmd =
      { state := cmd, raised := some e, effectorInvoked := true,
        effects := setterFx cmd } := by
  simp [statefulAction, hne, heff]

/-- Witness for the amended C3 at a concrete input. -/
theorem C3_amended_witness :
    (some "on" : Option String) ≠ some "off" ∧
    ((fun _ => .error .invalidCommand) : Option String →
        Except PyError (List HwEffect)) (some "off") = .error .invalidCommand ∧
    statefulAction (fun _ => .error .invalidCommand) (fun _ => [])
        (some "on") (some "off") =
      { state := some "off", raised := some .invalidCommand,
        effectorInvoked := true, effects := [] } :=
  ⟨by decide, rfl, C3_amended _ _ _ _ _ (by decide) rfl⟩

/-- C4 as stated is false on the code: `enqueue_to_timer` takes no duration
argument at all, and `start_timer` programs `2000 ms × (number of registered
actions)`. After two enqueues the period is 4000 ms; with durations
d1 = d2 = 3000 ms no fixed nonnegative buffer makes 4000 = BUFFER + d1 + d2. -/
theorem C4_counterexample :
    (enqueue_to_timer (enqueue_to_timer TimerState.empty 1) 2).hw = some 4000 ∧
    ¬ ∃ b : ℕ, b + 3000 + 3000 = 4000 := by
  constructor
  · decide
  · rintro ⟨b, hb⟩
    omega

/-- C4 amended: after enqueuing two distinct ids from the empty multiplexer
the programmed period is `2 × 2000 ms` (independent of any notion of
duration); after dequeuing the first id it is `2000 ms`; after every entry
has been removed the hardware timer is disarmed. -/
theorem C4_amended (id1 id2 : ℕ) (h : id1 ≠ id2) :
    (enqueue_to_timer (enqueue_to_timer TimerState.empty id1) id2).hw =
      some (2 * ACTION_PERIOD_MS) ∧
    (dequeue_from_timer
        (enqueue_to_timer (enqueue_to_timer TimerState.empty id1) id2) id1).2 =
      none ∧
    (dequeue_from_timer
        (enqueue_to_timer (enqueue_to_timer TimerState.empty id1) id2) id1).1.hw =
      some ACTION_PERIOD_MS ∧
    (dequeue_from_timer
        (dequeue_from_timer
          (enqueue_to_timer (enqueue_to_timer TimerState.empty id1) id2) id1).1
        id2).1.hw = none := by
  have h1 : enqueue_to_timer TimerState.empty id1 =
      ⟨[id1], some ACTION_PERIOD_MS⟩ := by
    simp [enqueue_to_timer, TimerState.empty, stop_timer, dictInsertKey,
      start_timer]
  have h2 : enqueue_to_timer (enqueue_to_timer TimerState.empty id1) id2 =
      ⟨[id1, id2], some (2 * ACTION_PERIOD_MS)⟩ := by
    rw [h1]
    simp [enqueue_to_timer, stop_timer, dictInsertKey, start_timer,
      (Ne.symm h), mul_comm]
  have h3 : dequeue_from_timer
      (⟨[id1, id2], some (2 * ACTION_PERIOD_MS)⟩ : TimerState) id1 =
      (⟨[id2], some ACTION_PERIOD_MS⟩, none) := by
    simp [dequeue_from_timer, stop_timer, start_timer, List.erase_cons_head]
  have h4 : dequeue_from_timer (⟨[id2], some ACTION_PERIOD_MS⟩ : TimerState)
      id2 = (⟨[], none⟩, none) := by
    simp [dequeue_from_timer, stop_timer, start_timer, List.erase_cons_head]
  rw [h2, h3, h4]
  exact ⟨rfl, rfl, rfl, rfl⟩

/-- Witness for the amended C4 with ids 1 and 2. -/
theorem C4_amended_witness :
    (1 : ℕ) ≠ 2 ∧
    (enqueue_to_timer (enqueue_to_timer TimerState.empty 1) 2).hw = some 4000 ∧
    (dequeue_from_timer
        (enqueue_to_timer (enqueue_to_timer TimerState.empty 1) 2) 1).2 = none ∧
    (dequeue_from_timer
        (enqueue_to_timer (enqueue_to_timer TimerState.empty 1) 2) 1).1.hw =
      some 2000 ∧
    (dequeue_from_timer
        (dequeue_from_timer
          (enqueue_to_timer (enqueue_to_timer TimerState.empty 1) 2) 1).1
        2).1.hw = none := by
  have h := C4_amended 1 2 (by decide)
  exact ⟨by decide, by simpa [ACTION_PERIOD_MS] using h.1, h.2.1,
    by simpa [ACTION_PERIOD_MS] using h.2.2.1, h.2.2.2⟩

/-- C7: `create(pins=(2,), kind=relay)` fails with the wrong-pin-count
ValueError and leaves registry and pool unchanged; after a successful
`create(pins=(2,3))`, `create(pins=(3,4))` fails with the
pins-unavailable ValueError (pin 3 already owned), again leaving registry
and pool unchanged. -/
theorem C7_construction_validation :
    post ServerState.initial [2] "RelayTrainSwitch" = .error .invalidPinCount ∧
    applyOp ServerState.initial (.create [2] "RelayTrainSwitch") =
      ServerState.initial ∧
    ∃ s1, post ServerState.initial [2, 3] "RelayTrainSwitch" = .ok s1 ∧
      post s1 [3, 4] "RelayTrainSwitch" = .error .pinUnavailable ∧
      applyOp s1 (.create [3, 4] "RelayTrainSwitch") = s1 := by
  refine ⟨by rfl, by rfl, _, rfl, by rfl, by rfl⟩

/-- C10 as stated is false on the code in one reachable corner: on a fresh
LightBeam (never turned on, id never enqueued) the first `action("off")`
latches `state = "off"` before the effector and then raises `KeyError`; the
device is still never-turned-on, yet a second `action("off")` now hits the
`state == action` skip branch of `StatefulBinaryDevice.action` and raises
nothing — contradicting "for every LightBeam device that has never been
turned on, action(off_state) raises KeyError". -/
theorem C10_counterexample :
    (kindAction .lightBeam false none (some "off")).raised = some .keyError ∧
    (kindAction .lightBeam false none (some "off")).state = some "off" ∧
    (kindAction .lightBeam false (some "off") (some "off")).raised = none ∧
    (kindAction .lightBeam false (some "off") (some "off")).effectorInvoked =
      false := by
  decide

/-- C10 amended: `dequeue_from_timer(id)` deletes `id` from the timer-action
map with no membership check and raises `KeyError` whenever `id` is not
registered; consequently a never-turned-on LightBeam (id never enqueued)
whose latched state is anything other than "off" itself — every fresh device
in particular — raises `KeyError` from `action("off")` and never reaches
`pixels_reset`, so the strip is not blanked. (A never-turned-on device
already latched "off" by a prior failed `action("off")` skips instead; see
the counterexample.) -/
theorem C10_dequeue_keyerror (s : TimerState) (id : ℕ) (hid : id ∉ s.actions)
    (st : Option String) (hst : st ≠ some "off") :
    (dequeue_from_timer s id).2 = some .keyError ∧
    (kindAction .lightBeam false st (some "off")).raised = some .keyError ∧
    HwEffect.pixelsReset ∉ (kindAction .lightBeam false st (some "off")).effects := by
  refine ⟨?_, ?_, ?_⟩
  · simp [dequeue_from_timer, stop_timer, hid]
  · simp [kindAction, DeviceKind.isStateless, statefulAction, hst,
      DeviceKind.rawAction, DeviceKind.on_state, DeviceKind.off_state]
  · simp [kindAction, DeviceKind.isStateless, statefulAction, hst,
      DeviceKind.rawAction, DeviceKind.on_state, DeviceKind.off_state,
      DeviceKind.stateSetterFx]

theorem cancelPending_relayOn (s : Disconnect.DState) :
    (Disconnect.cancelPending s).relayOn = s.relayOn := by
  unfold Disconnect.cancelPending
  split <;> rfl

theorem cancelPending_safe_stop (s : Disconnect.DState) :
    (Disconnect.cancelPending s).safe_stop =
      match s.safe_stop with
      | none => s.safe_stop
      | some _ => none := by
  unfold Disconnect.cancelPending
  split <;> simp_all

/-- One-step preservation of the outstanding-one-shot invariant: an
energized relay always has `self.safe_stop` set to a still-armed timer. -/
theorem disconnect_inv_step (s : Disconnect.DState) (ev : Disconnect.Event)
    (hI : s.relayOn = true →
      ∃ t, s.safe_stop = some t ∧ t ∈ s.armed.map Prod.fst) :
    (Disconnect.step s ev).relayOn = true →
      ∃ t, (Disconnect.step s ev).safe_stop = some t ∧
        t ∈ (Disconnect.step s ev).armed.map Prod.fst := by
  cases ev with
  | act cmd =>
      by_cases hskip : s.devState = cmd
      · simpa [Disconnect.step, hskip] using hI
      · simp only [Disconnect.step, hskip, if_false]
        by_cases hoff : cmd = none ∨ cmd = some "off"
        · intro hrel
          exfalso
          rw [show Disconnect.rawStep
              { s with devState := cmd,
                       relayOn := if pyFalsy cmd then false else s.relayOn } cmd =
              Disconnect.cancelPending
                { s with devState := cmd, relayOn := false } from by
            simp [Disconnect.rawStep, hoff]] at hrel
          rw [cancelPending_relayOn] at hrel
          exact Bool.false_ne_true hrel
        · by_cases hon : cmd = some "on"
          · intro _
            refine ⟨s.nextId, ?_, ?_⟩ <;>
              simp [Disconnect.rawStep, hoff, hon]
          · intro hrel
            simp only [Disconnect.rawStep, hoff, hon, if_false] at hrel ⊢
            by_cases hf : pyFalsy cmd = true
            · simp [hf] at hrel
            · simp only [Bool.not_eq_true] at hf
              simp only [hf, Bool.false_eq_true, if_false] at hrel
              exact hI hrel
  | fire t =>
      by_cases hmem : t ∈ s.armed.map Prod.fst
      · simp only [Disconnect.step, hmem, if_true]
        by_cases hrel : s.relayOn = true
        · simp [hrel]
        · simp only [Bool.not_eq_true] at hrel
          simp only [hrel, Bool.false_eq_true, if_false]
          intro h
          exact absurd h (by simp [hrel])
      · simp only [Disconnect.step, hmem, if_false]
        exact hI
  | close =>
      intro h
      exfalso
      cases hss : s.safe_stop <;> simp [Disconnect.step, hss] at h

/-- The invariant holds of every run from the construction state. -/
theorem disconnect_inv_run (es : List Disconnect.Event) :
    (Disconnect.run es).relayOn = true →
      ∃ t, (Disconnect.run es).safe_stop = some t ∧
        t ∈ (Disconnect.run es).armed.map Prod.fst := by
  suffices h : ∀ (l : List Disconnect.Event) (s : Disconnect.DState),
      (s.relayOn = true → ∃ t, s.safe_stop = some t ∧ t ∈ s.armed.map Prod.fst) →
      ((l.foldl Disconnect.step s).relayOn = true →
        ∃ t, (l.foldl Disconnect.step s).safe_stop = some t ∧
          t ∈ (l.foldl Disconnect.step s).armed.map Prod.fst) by
    refine h es Disconnect.DState.initial ?_
    intro hrel
    simp [Disconnect.DState.initial] at hrel
  intro l
  induction l with
  | nil => exact fun s hs => hs
  | cons ev rest ih =>
      intro s hs
      exact ih _ (disconnect_inv_step s ev hs)

theorem disconnect_on_step {s : Disconnect.DState}
    (hne : s.devState ≠ some "on") :
    Disconnect.step s (.act (some "on")) =
      ⟨some "on", true, some s.nextId,
        s.armed ++ [(s.nextId, SAFE_SHUTDOWN * 1000)], s.nextId + 1⟩ := by
  simp [Disconnect.step, hne, Disconnect.rawStep, pyFalsy]

/-- C2: for a Disconnect device, (i) the vocabulary is on/off; (ii) after
`action(on_state)` the relay is energized, `self.safe_stop` references a
fresh armed one-shot with period `SAFE_SHUTDOWN` seconds, and its expiry
with no intervening action leaves `state = off_state` with the relay
de-energized; (iii) an intervening `action(off_state)` before the expiry
de-energizes the relay, cancels the pending one-shot, and afterwards no
timer expiry can change the state (no forced transition); (iv) on every
event sequence from construction, whenever the relay is energized an armed
one-shot referenced by `self.safe_stop` is outstanding. -/
theorem C2_disconnect_interlock :
    DeviceKind.on_state .disconnect = some "on" ∧
    DeviceKind.off_state .disconnect = some "off" ∧
    (∀ s : Disconnect.DState, s.devState ≠ some "on" →
      (Disconnect.step s (.act (some "on"))).relayOn = true ∧
      (Disconnect.step s (.act (some "on"))).safe_stop = some s.nextId ∧
      (s.nextId, SAFE_SHUTDOWN * 1000) ∈
        (Disconnect.step s (.act (some "on"))).armed ∧
      (Disconnect.step (Disconnect.step s (.act (some "on")))
          (.fire s.nextId)).devState = some "off" ∧
      (Disconnect.step (Disconnect.step s (.act (some "on")))
          (.fire s.nextId)).relayOn = false) ∧
    (∀ s : Disconnect.DState, s.armed = [] → s.devState ≠ some "on" →
      (Disconnect.step (Disconnect.step s (.act (some "on")))
          (.act (some "off"))).relayOn = false ∧
      (Disconnect.step (Disconnect.step s (.act (some "on")))
          (.act (some "off"))).safe_stop = none ∧
      (Disconnect.step (Disconnect.step s (.act (some "on")))
          (.act (some "off"))).armed = [] ∧
      (∀ t, Disconnect.step
          (Disconnect.step (Disconnect.step s (.act (some "on")))
            (.act (some "off"))) (.fire t) =
        Disconnect.step (Disconnect.step s (.act (some "on")))
          (.act (some "off")))) ∧
    (∀ es : List Disconnect.Event, (Disconnect.run es).relayOn = true →
      ∃ t, (Disconnect.run es).safe_stop = some t ∧
        t ∈ (Disconnect.run es).armed.map Prod.fst) := by
  refine ⟨rfl, rfl, ?_, ?_, disconnect_inv_run⟩
  · intro s hne
    rw [disconnect_on_step hne]
    refine ⟨rfl, rfl, by simp, ?_, ?_⟩ <;>
      simp [Disconnect.step, List.mem_map]
  · intro s harmed hne
    rw [disconnect_on_step hne]
    have hoff : Disconnect.step
        (⟨some "on", true, some s.nextId,
          s.armed ++ [(s.nextId, SAFE_SHUTDOWN * 1000)], s.nextId + 1⟩ :
            Disconnect.DState) (.act (some "off")) =
        ⟨some "off", false, none,
          (s.armed ++ [(s.nextId, SAFE_SHUTDOWN * 1000)]).filter
            (fun a => a.1 ≠ s.nextId), s.nextId + 1⟩ := by
      simp [Disconnect.step, Disconnect.rawStep, pyFalsy,
        Disconnect.cancelPending]
    rw [hoff, harmed]
    refine ⟨rfl, rfl, by simp, ?_⟩
    intro t
    simp [Disconnect.step]

/-- Witness for C2: concrete runs from the construction state. -/
theorem C2_disconnect_interlock_witness :
    Disconnect.DState.initial.devState ≠ some "on" ∧
    Disconnect.DState.initial.armed = [] ∧
    (Disconnect.step (Disconnect.step Disconnect.DState.initial
        (.act (some "on"))) (.fire Disconnect.DState.initial.nextId)).devState =
      some "off" ∧
    (Disconnect.step (Disconnect.step Disconnect.DState.initial
        (.act (some "on"))) (.act (some "off"))).armed = [] ∧
    (Disconnect.run [.act (some "on")]).relayOn = true ∧
    (∃ t, (Disconnect.run [.act (some "on")]).safe_stop = some t ∧
      t ∈ (Disconnect.run [.act (some "on")]).armed.map Prod.fst) := by
  have h := C2_disconnect_interlock
  exact ⟨by decide, by decide,
    (h.2.2.1 Disconnect.DState.initial (by decide)).2.2.2.1,
    (h.2.2.2.1 Disconnect.DState.initial (by decide) (by decide)).2.2.1,
    by decide,
    h.2.2.2.2 [.act (some "on")] (by decide)⟩

theorem kindAction_foreign (k : DeviceKind) (queued : Bool)
    (st cmd : Option String) (hk : k ≠ .emptySwitch) (hon : cmd ≠ k.on_state)
    (hoff2 : cmd ≠ k.off_state) (hnone : cmd ≠ none) (hst : cmd ≠ st) :
    (kindAction k queued st cmd).raised = some .invalidCommand := by
  have hst2 : ¬ st = cmd := fun e => hst e.symm
  cases k <;>
    simp_all [kindAction, DeviceKind.isStateless, statefulAction,
      statelessAction, DeviceKind.rawAction, DeviceKind.on_state,
      DeviceKind.off_state]

theorem kindAction_none_ok (k : DeviceKind) (queued : Bool)
    (st : Option String) (hk1 : k ≠ .lightBeam) (hk2 : k ≠ .doubleLightBeam) :
    (kindAction k queued st none).raised = none := by
  cases k <;> by_cases hst : st = none <;>
    simp_all [kindAction, DeviceKind.isStateless, statefulAction,
      statelessAction, DeviceKind.rawAction, DeviceKind.on_state,
      DeviceKind.off_state]

theorem kindAction_lightBeam_none (k : DeviceKind) (st : Option String)
    (hk : k = .lightBeam ∨ k = .doubleLightBeam) (hst : st ≠ none) :
    (kindAction k false st none).raised = some .keyError := by
  rcases hk with h | h <;> subst h <;>
    simp_all [kindAction, DeviceKind.isStateless, statefulAction,
      DeviceKind.rawAction, DeviceKind.on_state, DeviceKind.off_state]

theorem kindAction_lightBeam_none_ok (k : DeviceKind) (queued : Bool)
    (st : Option String) (hk : k = .lightBeam ∨ k = .doubleLightBeam)
    (h : st = none ∨ queued = true) :
    (kindAction k queued st none).raised = none := by
  by_cases hst : st = none
  · rcases hk with hke | hke <;> subst hke <;>
      simp_all [kindAction, DeviceKind.isStateless, statefulAction]
  · have hq : queued = true := by
      rcases h with h | h
      · exact absurd h hst
      · exact h
    subst hq
    rcases hk with hke | hke <;> subst hke <;>
      simp_all [kindAction, DeviceKind.isStateless, statefulAction,
        DeviceKind.rawAction, DeviceKind.on_state, DeviceKind.off_state]

/-- C8 as stated is false on the code, in two ways exhibited here:
`EmptySwitch._action` returns any command unchanged, so a foreign command
string raises nothing (and is even latched); and `LightBeam.action(None)`
with a latched non-None state runs `dequeue_from_timer`, which raises
`KeyError` when the device id is not registered. -/
theorem C8_counterexample :
    (kindAction .emptySwitch false none (some "garbage")).raised = none ∧
    some "garbage" ≠ DeviceKind.on_state .emptySwitch ∧
    some "garbage" ≠ DeviceKind.off_state .emptySwitch ∧
    (kindAction .lightBeam false (some "on") none).raised = some .keyError := by
  decide

/-- C8 amended: for every device variant except EmptySwitch (whose effector
accepts anything), `action(cmd)` with a command other than the variant's
`on_state`/`off_state`/`None` that also differs from the current latched
state (a stateful device silently skips `cmd == state`) fails with the
invalid-command ValueError; `action(None)` never raises for any variant
except the LightBeam classes, where a latched non-None state with an
unregistered id raises `KeyError`, and a None state or registered id does
not raise. -/
theorem C8_amended :
    (∀ (k : DeviceKind) (queued : Bool) (st cmd : Option String),
      k ≠ .emptySwitch → cmd ≠ k.on_state → cmd ≠ k.off_state → cmd ≠ none →
      cmd ≠ st → (kindAction k queued st cmd).raised = some .invalidCommand) ∧
    (∀ (k : DeviceKind) (queued : Bool) (st : Option String),
      k ≠ .lightBeam → k ≠ .doubleLightBeam →
      (kindAction k queued st none).raised = none) ∧
    (∀ (k : DeviceKind) (st : Option String),
      (k = .lightBeam ∨ k = .doubleLightBeam) → st ≠ none →
      (kindAction k false st none).raised = some .keyError) ∧
    (∀ (k : DeviceKind) (queued : Bool) (st : Option String),
      (k = .lightBeam ∨ k = .doubleLightBeam) → (st = none ∨ queued = true) →
      (kindAction k queued st none).raised = none) :=
  ⟨kindAction_foreign, kindAction_none_ok, kindAction_lightBeam_none,
    kindAction_lightBeam_none_ok⟩

/-- Witness for the amended C8 at concrete inputs: a RelayTrainSwitch given
"zzz", a RelayTrainSwitch reset with None, a LightBeam latched "on" reset
with None while unregistered, and a fresh LightBeam reset with None. -/
theorem C8_amended_witness :
    (kindAction .relayTrainSwitch false none (some "zzz")).raised =
      some .invalidCommand ∧
    (kindAction .relayTrainSwitch false (some "straight") none).raised = none ∧
    (kindAction .lightBeam false (some "on") none).raised = some .keyError ∧
    (kindAction .lightBeam false none none).raised = none :=
  ⟨C8_amended.1 .relayTrainSwitch false none (some "zzz") (by decide)
      (by decide) (by decide) (by decide) (by decide),
    C8_amended.2.1 .relayTrainSwitch false (some "straight") (by decide)
      (by decide),
    C8_amended.2.2.1 .lightBeam (some "on") (by decide) (by decide),
    C8_amended.2.2.2 .lightBeam false none (by decide) (by decide)⟩

/-- C9: an existing 2-pin device at pins (2,3) changed to a kind requiring
one pin (a LightBeam resolved through the factory path) fails with the first
pin-count ValueError of `change_pins` — the spec's PinCountMismatch for the
change operation — and, since the raise precedes every mutation, the
original device, the registry order and the pin pool are untouched. -/
theorem C9_change_pin_count (s : ServerState) (d : Device)
    (hd : dictGet [2, 3] s.devices = some d)
    (hreq : d.kind.required_pins = 2) :
    change_pins s [2, 3] "LightBeam" = .error .changeNotEnoughPins ∧
    applyChange s [2, 3] "LightBeam" = s := by
  have hsort : sortPins [2, 3] = [2, 3] := by decide
  have hcp : change_pins s [2, 3] "LightBeam" = .error .changeNotEnoughPins := by
    simp [change_pins, resolveDeviceType, hsort, hd, DeviceKind.required_pins]
  exact ⟨hcp, by simp [applyChange, hcp]⟩

/-- Witness for C9: the registry obtained by creating a RelayTrainSwitch at
(2,3). -/
theorem C9_change_pin_count_witness :
    dictGet [2, 3] (runOps [.create [2, 3] "RelayTrainSwitch"]).devices =
      some ⟨.relayTrainSwitch, [2, 3], none⟩ ∧
    DeviceKind.relayTrainSwitch.required_pins = 2 ∧
    change_pins (runOps [.create [2, 3] "RelayTrainSwitch"]) [2, 3]
        "LightBeam" = .error .changeNotEnoughPins ∧
    applyChange (runOps [.create [2, 3] "RelayTrainSwitch"]) [2, 3]
        "LightBeam" = runOps [.create [2, 3] "RelayTrainSwitch"] := by
  have hd : dictGet [2, 3]
      (runOps [.create [2, 3] "RelayTrainSwitch"]).devices =
      some ⟨.relayTrainSwitch, [2, 3], none⟩ := by rfl
  have h := C9_change_pin_count (runOps [.create [2, 3] "RelayTrainSwitch"])
    ⟨.relayTrainSwitch, [2, 3], none⟩ hd (by decide)
  exact ⟨hd, by decide, h.1, h.2⟩

theorem CLS_MAP_kindName (k : DeviceKind) (h : k.required_pins = 2) :
    CLS_MAP k.kindName = some k := by
  cases k <;> first
    | rfl
    | (exfalso; simp [DeviceKind.required_pins] at h)

/-- Setting the saved state on a freshly constructed device restores exactly
that state without an exception: stateful classes either skip (state `None`)
or run their effector on their own on/off label, which succeeds; stateless
classes only ever have state `None` saved and their effector accepts
`None`. -/
theorem kindAction_restore (k : DeviceKind) (st : Option String)
    (hreq : k.required_pins = 2) (hnlb : k ≠ .doubleLightBeam)
    (hsl : k.isStateless = true → st = none)
    (hvalid : st = none ∨ st = k.on_state ∨ st = k.off_state) :
    (kindAction k false none st).raised = none ∧
    (kindAction k false none st).state = st := by
  cases k <;>
    first
      | exact absurd rfl hnlb
      | (exfalso; simp [DeviceKind.required_pins] at hreq; done)
      | (have hst := hsl rfl; subst hst; exact ⟨by decide, by decide⟩)
      | (rcases hvalid with h | h | h <;> subst h <;>
          exact ⟨by decide, by decide⟩)

theorem dictGet_map_self {α β : Type} (f : List ℕ × α → β) :
    ∀ {devs : List (List ℕ × α)} {kv : List ℕ × α},
      (devs.map Prod.fst).Nodup → kv ∈ devs →
      dictGet kv.1 (devs.map fun x => (x.1, f x)) = some (f kv)
  | [], _, _, hm => by simp at hm
  | a :: t, kv, hnd, hm => by
      simp only [List.map_cons, List.nodup_cons] at hnd
      rcases List.mem_cons.mp hm with he | ht
      · subst he
        simp [dictGet]
      · have hne : ¬ a.1 = kv.1 := by
          intro e
          exact hnd.1 (e ▸ List.mem_map.mpr ⟨kv, ht, rfl⟩)
        rw [List.map_cons, dictGet_cons_ne (a.1, f a) hne]
        exact dictGet_map_self f hnd.2 ht

theorem reorderCfg_cons_ne (kv : List ℕ × CfgEntry)
    (cfg : List (List ℕ × CfgEntry)) :
    ∀ (order : List (List ℕ)), (∀ o ∈ order, o ≠ kv.1) →
      reorderCfg order (kv :: cfg) = reorderCfg order cfg := by
  intro order
  induction order with
  | nil => intro _; rfl
  | cons k rest ih =>
      intro h
      have h1 : ¬ kv.1 = k := fun e => (h k (by simp)) e.symm
      have h2 := ih (fun o ho => h o (by simp [ho]))
      simp only [reorderCfg]
      rw [dictGet_cons_ne kv h1, h2]

theorem reorderCfg_keys : ∀ (cfg : List (List ℕ × CfgEntry)),
    (cfg.map Prod.fst).Nodup →
    reorderCfg (cfg.map Prod.fst) cfg = .ok cfg := by
  intro cfg
  induction cfg with
  | nil => intro _; rfl
  | cons kv t ih =>
      intro h
      simp only [List.map_cons, List.nodup_cons] at h
      have hget : dictGet kv.1 (kv :: t) = some kv.2 := by
        simp [dictGet]
      have htail : reorderCfg (t.map Prod.fst) (kv :: t) =
          reorderCfg (t.map Prod.fst) t :=
        reorderCfg_cons_ne kv t _ (fun o ho e => h.1 (e ▸ ho))
      simp only [List.map_cons, reorderCfg]
      rw [hget, htail, ih h.2]

theorem constructLoop_save : ∀ (devs : List (List ℕ × Device)),
    (∀ kv ∈ devs, kv.1 = kv.2.pins ∧ kv.2.wfStored) →
    constructLoop (devs.map fun kv => (kv.1, deviceToJson kv.2)) =
      .ok (devs.map fun kv => (kv.1, { kv.2 with state := none })) := by
  intro devs
  induction devs with
  | nil => intro _; rfl
  | cons kv t ih =>
      intro h
      obtain ⟨hkey, hreq, hnlb, hsorted, hlen, _hsl, _hvalid⟩ :=
        And.intro (h kv (by simp)).1 (h kv (by simp)).2
      have hcm : CLS_MAP (kv.2.kind.kindName) = some kv.2.kind :=
        CLS_MAP_kindName _ hreq
      have hcd : constructDevice kv.2.kind kv.2.pins =
          .ok ⟨kv.2.kind, kv.2.pins, none⟩ := by
        unfold constructDevice
        have hk1 : ¬ (kv.2.kind = .lightBeam ∨ kv.2.kind = .doubleLightBeam) := by
          rintro (h1 | h1)
          · rw [h1] at hreq
            simp [DeviceKind.required_pins] at hreq
          · exact hnlb h1
        rw [if_neg hk1, ← hsorted, if_pos (by rw [hlen, hreq])]
      have ihe := ih (fun kv2 hkv2 => h kv2 (by simp [hkv2]))
      simp only [deviceToJson] at ihe
      simp only [List.map_cons, constructLoop, deviceToJson, hcm, hcd, hkey,
        ihe]

theorem setStatesLoop_restore (cfg : List (List ℕ × CfgEntry)) :
    ∀ (devs : List (List ℕ × Device)),
      (∀ kv ∈ devs, dictGet kv.1 cfg = some (deviceToJson kv.2) ∧
        kv.2.wfStored) →
      setStatesLoop cfg (devs.map fun kv => (kv.1, { kv.2 with state := none })) =
        .ok devs := by
  intro devs
  induction devs with
  | nil => intro _; rfl
  | cons kv t ih =>
      intro h
      obtain ⟨hget, hreq, hnlb, _hsorted, _hlen, hsl, hvalid⟩ :=
        And.intro (h kv (by simp)).1 (h kv (by simp)).2
      obtain ⟨hr, hs⟩ := kindAction_restore kv.2.kind kv.2.state hreq hnlb hsl hvalid
      simp only [List.map_cons, setStatesLoop, deviceToJson] at hget ⊢
      rw [hget]
      simp only
      rw [hr, hs, ih (fun kv2 hkv2 => h kv2 (by simp [hkv2]))]

/-- C6: for every registry of live devices (creatable kinds, sorted two-pin
tuples, reachable states, duplicate-free keys matching the devices' pins),
`save` followed by closing all devices and `load` reproduces an equivalent
ordered device set: literally the same list — same insertion order and, for
each entry, the same pins, device kind, and state as at the save. -/
theorem C6_profile_roundtrip (devs : List (List ℕ × Device))
    (h1 : ∀ kv ∈ devs, kv.1 = kv.2.pins ∧ kv.2.wfStored)
    (h2 : (devs.map Prod.fst).Nodup) :
    loadProfile (saveProfile devs) = .ok devs := by
  unfold loadProfile saveProfile
  have hkeys : (devs.map fun kv => (kv.1, deviceToJson kv.2)).map Prod.fst =
      devs.map Prod.fst := by
    induction devs with
    | nil => rfl
    | cons a t ih => simp_all
  have hre : reorderCfg (devs.map Prod.fst)
      (devs.map fun kv => (kv.1, deviceToJson kv.2)) =
      .ok (devs.map fun kv => (kv.1, deviceToJson kv.2)) := by
    rw [← hkeys]
    exact reorderCfg_keys _ (by rw [hkeys]; exact h2)
  simp only [hre]
  unfold construct_from_cfg
  rw [constructLoop_save devs h1]
  exact setStatesLoop_restore _ devs (fun kv hkv =>
    ⟨dictGet_map_self (fun x => deviceToJson x.2) h2 hkv, (h1 kv hkv).2⟩)

/-- Witness for C6: a registry holding a RelayTrainSwitch latched "straight"
at (2,3) and a DCMotor at (4,5). -/
theorem C6_profile_roundtrip_witness :
    loadProfile (saveProfile
      [([2, 3], ⟨.relayTrainSwitch, [2, 3], some "straight"⟩),
       ([4, 5], ⟨.dcMotor, [4, 5], none⟩)]) =
      .ok [([2, 3], ⟨.relayTrainSwitch, [2, 3], some "straight"⟩),
           ([4, 5], ⟨.dcMotor, [4, 5], none⟩)] :=
  C6_profile_roundtrip _ (by decide) (by decide)

/-- Witness for C10: the empty timer map, id 7, a fresh LightBeam. -/
theorem C10_dequeue_keyerror_witness :
    (7 : ℕ) ∉ TimerState.empty.actions ∧
    (none : Option String) ≠ some "off" ∧
    (dequeue_from_timer TimerState.empty 7).2 = some .keyError ∧
    (kindAction .lightBeam false none (some "off")).raised = some .keyError ∧
    HwEffect.pixelsReset ∉ (kindAction .lightBeam false none (some "off")).effects := by
  have h := C10_dequeue_keyerror TimerState.empty 7 (by decide) none (by decide)
  exact ⟨by decide, by decide, h.1, h.2.1, h.2.2⟩

end PicoTS
